import Mathlib

/-!
Shallow embedding of the Smart Parking demo (Smart_Parking_Project).

The repository keeps two App variants.  Variant A (stored in
`src/types.ts`, second document) contains the physics loop (lines
106-121), the navigation effect (lines 124-166, arrival check at
134-142, angle normalization at 145-146, steering classification at
148-157), `onAnalysisComplete` (168-174) and `findSpot` (176-188).
Variant B (`src/types.ts`, third document) contains the guidance rate
limiter (`checkNavigation`, lines 497-543).  The pixel-statistics
occupancy classifier is `analyze` in `src/components/ParkingMap.tsx`
(lines 62-150).

Machine numbers of the source are IEEE doubles; all quantities that the
claims touch are embedded as rationals, with square-root comparisons
`hypot dx dy < c` rewritten to the equivalent `dx*dx + dy*dy < c*c`.
Trigonometric values (`Math.cos`, `Math.sin`, `Math.atan2`) only flow
through the logic as opaque inputs, so the corresponding functions are
taken as parameters.
-/

namespace SmartParking

/-- Spot categories, from `SpotType` in `src/types.ts`. -/
inductive SpotType where
  | standard
  | compact
  | handicap
  | ev
  | vip
deriving DecidableEq, Repr

/-- Occupancy states, from `SpotStatus` in `src/types.ts`. -/
inductive SpotStatus where
  | available
  | occupied
  | reserved
deriving DecidableEq, Repr

/-- A parking spot, from `ParkingSpot` in `src/types.ts`. -/
structure ParkingSpot where
  id : String
  type : SpotType
  status : SpotStatus
  x : ℚ
  y : ℚ
  aisle : String
deriving DecidableEq, Repr

/-- A 2D point in the normalized 0-100 coordinate space
(`Coordinates` in `src/types.ts`). -/
structure Coordinates where
  x : ℚ
  y : ℚ
deriving DecidableEq, Repr

/-- Vehicle motion state (`state: 'driving' | 'parked'`). -/
inductive CarState where
  | driving
  | parked
deriving DecidableEq, Repr

/-- The user vehicle, from `Vehicle` in `src/types.ts` (the constant
`type: 'user'` field is omitted). -/
structure Vehicle where
  id : String
  location : Coordinates
  rotation : ℚ
  targetSpotId : Option String
  state : CarState
  color : String
deriving DecidableEq, Repr

/-- The initial user car of App variant A (`src/types.ts` lines 73-76). -/
def initialUserCar : Vehicle :=
  { id := "user", location := { x := 5, y := 50 }, rotation := 0,
    targetSpotId := none, state := CarState.driving, color := "#3b82f6" }

/-- The constant `INITIAL_SPOTS` of App variant A (`src/types.ts` lines 56-67). -/
def INITIAL_SPOTS : List ParkingSpot :=
  [ { id := "A1", type := SpotType.standard, status := SpotStatus.available, x := 15, y := 15, aisle := "A" },
    { id := "A2", type := SpotType.standard, status := SpotStatus.available, x := 30, y := 15, aisle := "A" },
    { id := "A3", type := SpotType.standard, status := SpotStatus.available, x := 45, y := 15, aisle := "A" },
    { id := "A4", type := SpotType.ev, status := SpotStatus.available, x := 60, y := 15, aisle := "A" },
    { id := "A5", type := SpotType.handicap, status := SpotStatus.available, x := 75, y := 15, aisle := "A" },
    { id := "B1", type := SpotType.standard, status := SpotStatus.available, x := 15, y := 85, aisle := "B" },
    { id := "B2", type := SpotType.standard, status := SpotStatus.available, x := 30, y := 85, aisle := "B" },
    { id := "B3", type := SpotType.standard, status := SpotStatus.available, x := 45, y := 85, aisle := "B" },
    { id := "B4", type := SpotType.vip, status := SpotStatus.available, x := 60, y := 85, aisle := "B" },
    { id := "B5", type := SpotType.standard, status := SpotStatus.available, x := 75, y := 85, aisle := "B" } ]

/-- The set of pressed arrow keys (`keysPressed : Set<string>` restricted
to the four keys the physics loop reads). -/
structure Keys where
  up : Bool
  down : Bool
  left : Bool
  right : Bool
deriving DecidableEq, Repr

/-- Test `keysPressed.size === 0` for the four relevant keys. -/
def Keys.isEmpty (k : Keys) : Bool :=
  !k.up && !k.down && !k.left && !k.right

/-- The clamp `Math.max(0, Math.min(100, q))`, applied to coordinates of the physics
loop (`src/types.ts` line 117). -/
def clamp01 (q : ℚ) : ℚ :=
  max 0 (min 100 q)

/-- One iteration of the variant-A physics loop (`src/types.ts` lines
106-121).  `cosF` and `sinF` stand for `Math.cos`/`Math.sin` composed
with the degree-to-radian conversion; the loop body uses their values
only as movement deltas. -/
def physicsTick (cosF sinF : ℚ → ℚ) (ks : Keys) (v : Vehicle) : Vehicle :=
  if v.state = CarState.parked ∨ ks.isEmpty then v
  else
    let rot := v.rotation + (if ks.left then -3 else 0) + (if ks.right then 3 else 0)
    let x1 := v.location.x + (if ks.up then cosF rot * (6/5) else 0)
              + (if ks.down then -(cosF rot * (4/5)) else 0)
    let y1 := v.location.y + (if ks.up then sinF rot * (6/5) else 0)
              + (if ks.down then -(sinF rot * (4/5)) else 0)
    { v with location := { x := clamp01 x1, y := clamp01 y1 }, rotation := rot }

/-- Iterated physics loop over a list of per-tick key states. -/
def runPhysics (cosF sinF : ℚ → ℚ) (inputs : List Keys) (v : Vehicle) : Vehicle :=
  inputs.foldl (fun st ks => physicsTick cosF sinF ks st) v

/-- Both normalized coordinates lie in [0,100]. -/
def inBounds (v : Vehicle) : Prop :=
  0 ≤ v.location.x ∧ v.location.x ≤ 100 ∧ 0 ≤ v.location.y ∧ v.location.y ≤ 100

instance (v : Vehicle) : Decidable (inBounds v) := by
  unfold inBounds
  infer_instance

lemma clamp01_nonneg (q : ℚ) : 0 ≤ clamp01 q :=
  le_max_left 0 _

lemma clamp01_le (q : ℚ) : clamp01 q ≤ 100 :=
  max_le (by norm_num) (min_le_left 100 q)

lemma physicsTick_inBounds (cosF sinF : ℚ → ℚ) (ks : Keys) (v : Vehicle)
    (h : inBounds v) : inBounds (physicsTick cosF sinF ks v) := by
  unfold physicsTick
  by_cases hg : v.state = CarState.parked ∨ ks.isEmpty
  · simpa [hg] using h
  · simp only [hg, if_false]
    exact ⟨clamp01_nonneg _, clamp01_le _, clamp01_nonneg _, clamp01_le _⟩

/-- Truncation toward zero, the rounding used by the JavaScript `%`
operator (`a % n = a - n * trunc(a / n)`). -/
def ratTrunc (q : ℚ) : ℤ :=
  if 0 ≤ q then ⌊q⌋ else ⌈q⌉

/-- The JavaScript remainder operator `a % n` on numbers: the result
keeps the sign of the dividend `a`. -/
def jsRem (a n : ℚ) : ℚ :=
  a - n * (ratTrunc (a / n) : ℚ)

/-- The expression `(angleToTarget - rotation + 540) % 360 - 180`, the signed angle
difference computed by the navigation effect (`src/types.ts` line 146),
with `%` the JavaScript remainder. -/
def jsAngleDiff (bearing heading : ℚ) : ℚ :=
  jsRem (bearing - heading + 540) 360 - 180

/-- Formalization of the SPEC's wording of the normalization formula,
`((bearing − heading + 540) mod 360) − 180` with the mathematical
(nonnegative-result, floor-based) `mod`.  Kept separate from
`jsAngleDiff` so the two can be compared. -/
def specAngleDiff (bearing heading : ℚ) : ℚ :=
  (bearing - heading + 540) - 360 * (⌊(bearing - heading + 540) / 360⌋ : ℚ) - 180

/-- The steering-command chain of the navigation effect
(`src/types.ts` lines 148-157). -/
def steerCmd (angleDiff : ℚ) : String :=
  if 130 < |angleDiff| then "Reverse back carefully."
  else if 25 < angleDiff then "Turn right."
  else if angleDiff < -25 then "Turn left."
  else "Drive straight ahead."

/-- Outcome of one run of the variant-A navigation effect. -/
inductive NavOutcome where
  | noOp
  | arrived
  | instruction (cmd : String)
deriving DecidableEq, Repr

/-- One run of the variant-A navigation effect (`src/types.ts` lines
124-166): guard on a live target, resolve it by id, arrival check
`hypot dx dy < 4` (embedded as `dx*dx + dy*dy < 16`), otherwise the
steering command from the normalized angle difference.  `atan2Deg`
stands for `Math.atan2(dy, dx) * 180 / Math.PI`. -/
def navStep (atan2Deg : ℚ → ℚ → ℚ) (spots : List ParkingSpot) (v : Vehicle) :
    NavOutcome × Vehicle :=
  match v.targetSpotId with
  | none => (NavOutcome.noOp, v)
  | some tid =>
    if v.state = CarState.parked then (NavOutcome.noOp, v)
    else
      match spots.find? (fun s => s.id = tid) with
      | none => (NavOutcome.noOp, v)
      | some t =>
        let dx := t.x - v.location.x
        let dy := t.y - v.location.y
        if dx * dx + dy * dy < 16 then
          (NavOutcome.arrived, { v with state := CarState.parked })
        else
          (NavOutcome.instruction (steerCmd (jsAngleDiff (atan2Deg dy dx) v.rotation)), v)

/-- Function `findSpot` of App variant A (`src/types.ts` lines 176-188): filter
to available spots of the requested category, then take `available[0]`;
`none` models the "no vacant spots" outcome. -/
def findSpot (spots : List ParkingSpot) (type? : Option SpotType) : Option ParkingSpot :=
  (spots.filter fun s =>
    decide (s.status = SpotStatus.available) &&
      (match type? with | none => true | some t => decide (s.type = t))).head?

/-- Callback `onAnalysisComplete` of App variant A (`src/types.ts` lines
168-174): every spot's status is overwritten from the classifier's
occupied-id list. -/
def onAnalysisComplete (spots : List ParkingSpot) (occupiedIds : List String) :
    List ParkingSpot :=
  spots.map fun s =>
    { s with status := if occupiedIds.contains s.id then SpotStatus.occupied
                       else SpotStatus.available }

/-- Squared Euclidean distance in the normalized coordinate space. -/
def dist2 (a b : Coordinates) : ℚ :=
  (a.x - b.x) * (a.x - b.x) + (a.y - b.y) * (a.y - b.y)

/-- Mutable refs of variant B's guidance logic (`src/types.ts` lines
422-423): `lastGuidanceTime` starts at 0, `lastGuidanceLocation` at
null. -/
structure GuideState where
  lastGuidanceTime : ℤ
  lastGuidanceLocation : Option Coordinates
deriving DecidableEq, Repr

/-- Initial guidance refs of variant B. -/
def initialGuideState : GuideState :=
  { lastGuidanceTime := 0, lastGuidanceLocation := none }

/-- Outcome of one run of variant B's `checkNavigation`: an instruction
was emitted (spoken/shown), the call was silent, or the arrival branch
fired. -/
inductive GuideOutcome where
  | emit
  | silent
  | arrivedB
deriving DecidableEq, Repr

/-- Variant B's `checkNavigation` (`src/types.ts` lines 497-543), called
with the current wall-clock time in milliseconds.  Arrival uses
`sqrt(dx*dx + dy*dy) < 4`, embedded as the square comparison; the
rate-limit guard is `timeDiff > 8000 || (distMoved > 5 && timeDiff >
1000)` with `distMoved > 5` embedded as `distMoved2 > 25`.  The emitted
instruction text comes from an external service and is abstracted into
the `emit` outcome. -/
def checkNavigation (now : ℤ) (spots : List ParkingSpot) (v : Vehicle)
    (g : GuideState) : GuideOutcome × Vehicle × GuideState :=
  match v.targetSpotId with
  | none => (GuideOutcome.silent, v, g)
  | some tid =>
    if v.state = CarState.parked then (GuideOutcome.silent, v, g)
    else
      match spots.find? (fun s => s.id = tid) with
      | none => (GuideOutcome.silent, v, g)
      | some t =>
        let dx := t.x - v.location.x
        let dy := t.y - v.location.y
        if dx * dx + dy * dy < 16 then
          (GuideOutcome.arrivedB, { v with state := CarState.parked }, g)
        else
          let timeDiff := now - g.lastGuidanceTime
          let distMoved2 : ℚ :=
            match g.lastGuidanceLocation with
            | none => 0
            | some p => dist2 v.location p
          if 8000 < timeDiff ∨ (25 < distMoved2 ∧ 1000 < timeDiff) then
            (GuideOutcome.emit, v,
              { lastGuidanceTime := now, lastGuidanceLocation := some v.location })
          else
            (GuideOutcome.silent, v, g)

/-- One RGBA pixel as read back from the canvas; the alpha channel is
never consulted by the classifier and is omitted. -/
structure Pixel where
  r : ℕ
  g : ℕ
  b : ℕ
deriving DecidableEq, Repr

/-- Broadcast luminance scaled by 1000: `0.299 r + 0.587 g + 0.114 b`
(`src/components/ParkingMap.tsx` line 98). -/
def lumTimes1000 (p : Pixel) : ℕ :=
  299 * p.r + 587 * p.g + 114 * p.b

/-- The channel maximum `Math.max(r, g, b)`. -/
def maxChannel (p : Pixel) : ℕ :=
  max p.r (max p.g p.b)

/-- The channel minimum `Math.min(r, g, b)`. -/
def minChannel (p : Pixel) : ℕ :=
  min p.r (min p.g p.b)

/-- Test `lum < 35` (`src/components/ParkingMap.tsx` line 112), the deep-dark
pixel test, with the luminance comparison scaled by 1000. -/
def isDeepDark (p : Pixel) : Bool :=
  decide (lumTimes1000 p < 35000)

/-- Test `sat > 0.20` with `sat = (max - min) / max` when `max > 0`, else 0
(`src/components/ParkingMap.tsx` lines 101-104, 118): rewritten without
division as `5 * (max - min) > max`. -/
def isHighSat (p : Pixel) : Bool :=
  decide (0 < maxChannel p ∧ maxChannel p < 5 * (maxChannel p - minChannel p))

/-- Ratio `darkRatio = deepDarkPixels / count` over the sampled block.  The
source counts in one loop pass; counting with `countP` is
value-equal. -/
def darkFrac (l : List Pixel) : ℚ :=
  (l.countP isDeepDark : ℚ) / (l.length : ℚ)

/-- Ratio `satRatio = highSatPixels / count` over the sampled block. -/
def satFrac (l : List Pixel) : ℚ :=
  (l.countP isHighSat : ℚ) / (l.length : ℚ)

/-- Decision `isOccupied = satRatio > 0.10 || darkRatio > 0.015`
(`src/components/ParkingMap.tsx` line 138). -/
def isOccupiedRegion (l : List Pixel) : Bool :=
  decide (1/10 < satFrac l ∨ 3/200 < darkFrac l)

/-- A decoded lot image: its native dimensions plus the pixel blocks the
canvas delivers for an in-bounds read request. -/
structure ImageData where
  width : ℚ
  height : ℚ
  sample : ℚ → ℚ → ℚ → ℚ → List Pixel

/-- Modelled from the spec: the external canvas pixel read
(`ctx.getImageData`) used by `analyze` in
`src/components/ParkingMap.tsx` line 84 is not part of this repository;
per the spec's error condition, a request whose box lies fully within
the image's native bounds succeeds, and a partially out-of-bounds
request fails (the failure lands in the per-spot `catch`). -/
def getImageData (img : ImageData) (x y w h : ℚ) : Option (List Pixel) :=
  if 0 ≤ x ∧ 0 ≤ y ∧ x + w ≤ img.width ∧ y + h ≤ img.height then
    some (img.sample x y w h)
  else
    none

/-- The sampling box of a spot (`src/components/ParkingMap.tsx` lines
77-84): center at the percentage coordinates scaled to pixels, size
`floor(50/800 * width) x floor(80/600 * height)`, read from the
top-left corner.  Returned as (x, y, w, h). -/
def spotBox (img : ImageData) (s : ParkingSpot) : ℚ × ℚ × ℚ × ℚ :=
  let x := s.x / 100 * img.width
  let y := s.y / 100 * img.height
  let w : ℚ := (⌊50 / 800 * img.width⌋ : ℤ)
  let h : ℚ := (⌊80 / 600 * img.height⌋ : ℤ)
  (x - w / 2, y - h / 2, w, h)

/-- The spot's sampling box lies fully inside the image bounds. -/
def boxInBounds (img : ImageData) (s : ParkingSpot) : Prop :=
  let bx := (spotBox img s).1
  let by2 := (spotBox img s).2.1
  let bw := (spotBox img s).2.2.1
  let bh := (spotBox img s).2.2.2
  0 ≤ bx ∧ 0 ≤ by2 ∧ bx + bw ≤ img.width ∧ by2 + bh ≤ img.height

instance (img : ImageData) (s : ParkingSpot) : Decidable (boxInBounds img s) := by
  unfold boxInBounds
  infer_instance

/-- The per-spot body of the classifier's `forEach` loop
(`src/components/ParkingMap.tsx` lines 75-147): sample the spot's box
and return the id when the occupancy decision fires; a failed sample is
caught (`none`) and the spot skipped. -/
def analyzeSpot (img : ImageData) (s : ParkingSpot) : Option String :=
  let box := spotBox img s
  match getImageData img box.1 box.2.1 box.2.2.1 box.2.2.2 with
  | none => none
  | some data => if isOccupiedRegion data then some s.id else none

/-- The classifier `analyze` of `src/components/ParkingMap.tsx` (lines
62-150): the occupied ids collected over all spots in order. -/
def analyze (img : ImageData) (spots : List ParkingSpot) : List String :=
  spots.filterMap (analyzeSpot img)

/-! ### Helper lemmas -/

/-- A tick input holding only the right-turn arrow key. -/
def rightKeys : Keys :=
  { up := false, down := false, left := false, right := true }

/-- A tick input holding only the left-turn arrow key. -/
def leftKeys : Keys :=
  { up := false, down := false, left := true, right := false }

lemma physicsTick_rightKeys (cosF sinF : ℚ → ℚ) (r : ℚ) :
    physicsTick cosF sinF rightKeys { initialUserCar with rotation := r } =
      { initialUserCar with rotation := r + 3 } := by
  simp [physicsTick, rightKeys, Keys.isEmpty, initialUserCar, clamp01]
  norm_num

lemma physicsTick_leftKeys (cosF sinF : ℚ → ℚ) (r : ℚ) :
    physicsTick cosF sinF leftKeys { initialUserCar with rotation := r } =
      { initialUserCar with rotation := r - 3 } := by
  simp [physicsTick, leftKeys, Keys.isEmpty, initialUserCar, clamp01]
  norm_num
  ring

lemma runPhysics_rightKeys (cosF sinF : ℚ → ℚ) (n : ℕ) :
    runPhysics cosF sinF (List.replicate n rightKeys) initialUserCar =
      { initialUserCar with rotation := 3 * n } := by
  induction n with
  | zero =>
    simp only [List.replicate, runPhysics, List.foldl_nil, Nat.cast_zero, mul_zero,
      neg_zero]
    rfl
  | succ n ih =>
    rw [List.replicate_succ']
    unfold runPhysics at ih ⊢
    rw [List.foldl_append, ih]
    simp [physicsTick_rightKeys]
    ring

lemma runPhysics_leftKeys (cosF sinF : ℚ → ℚ) (n : ℕ) :
    runPhysics cosF sinF (List.replicate n leftKeys) initialUserCar =
      { initialUserCar with rotation := -(3 * n) } := by
  induction n with
  | zero =>
    simp only [List.replicate, runPhysics, List.foldl_nil, Nat.cast_zero, mul_zero,
      neg_zero]
    rfl
  | succ n ih =>
    rw [List.replicate_succ']
    unfold runPhysics at ih ⊢
    rw [List.foldl_append, ih]
    simp [physicsTick_leftKeys]
    ring

/-! ### Claims -/

/-- C1: whenever the vehicle is driving toward a resolvable target and
the Euclidean distance between vehicle and target in the normalized
0-100 space is below 4 units (squared distance below 16), the
navigation effect emits the arrival outcome and flips the motion state
from driving to parked; a subsequent call on the parked vehicle with
positions unchanged emits nothing (terminal, idempotent). -/
theorem arrival_parks_and_is_terminal (atan2Deg : ℚ → ℚ → ℚ)
    (spots : List ParkingSpot) (v : Vehicle) (tid : String) (t : ParkingSpot)
    (hstate : v.state = CarState.driving)
    (htid : v.targetSpotId = some tid)
    (hfind : spots.find? (fun s => s.id = tid) = some t)
    (hdist : (t.x - v.location.x) * (t.x - v.location.x)
      + (t.y - v.location.y) * (t.y - v.location.y) < 16) :
    navStep atan2Deg spots v
      = (NavOutcome.arrived, { v with state := CarState.parked }) ∧
    navStep atan2Deg spots { v with state := CarState.parked }
      = (NavOutcome.noOp, { v with state := CarState.parked }) := by
  constructor
  · unfold navStep
    rw [htid]
    simp [hstate, hfind, hdist]
  · unfold navStep
    rw [htid]
    simp

/-- Witness for C1: vehicle at (50,50), target spot at (52,51), squared
distance 5 < 16. -/
theorem arrival_parks_and_is_terminal_witness :
    navStep (fun _ _ => 0)
        [{ id := "S1", type := SpotType.standard, status := SpotStatus.available,
           x := 52, y := 51, aisle := "A" }]
        { id := "user", location := { x := 50, y := 50 }, rotation := 0,
          targetSpotId := some "S1", state := CarState.driving, color := "#3b82f6" }
      = (NavOutcome.arrived,
         { id := "user", location := { x := 50, y := 50 }, rotation := 0,
           targetSpotId := some "S1", state := CarState.parked, color := "#3b82f6" }) ∧
    navStep (fun _ _ => 0)
        [{ id := "S1", type := SpotType.standard, status := SpotStatus.available,
           x := 52, y := 51, aisle := "A" }]
        { id := "user", location := { x := 50, y := 50 }, rotation := 0,
          targetSpotId := some "S1", state := CarState.parked, color := "#3b82f6" }
      = (NavOutcome.noOp,
         { id := "user", location := { x := 50, y := 50 }, rotation := 0,
           targetSpotId := some "S1", state := CarState.parked, color := "#3b82f6" }) :=
  arrival_parks_and_is_terminal (fun _ _ => 0) _ _ "S1"
    { id := "S1", type := SpotType.standard, status := SpotStatus.available,
      x := 52, y := 51, aisle := "A" }
    rfl rfl (by decide) (by norm_num)

/-- C2 counterexample: the program's angle difference does not always
lie in (-180, 180], nor does it always agree with the floor-based
mathematical mod formula, over headings the physics loop produces.  At
heading 0 (the initial rotation) and bearing 180 the program yields
exactly -180, outside (-180, 180]; at the reachable heading 720
(240 right-turn ticks) and bearing -170 the program yields -530 while
the mathematical formula yields -170. -/
theorem angle_normalization_counterexample :
    jsAngleDiff 180 0 = -180 ∧
    ¬ (-180 < jsAngleDiff 180 0) ∧
    initialUserCar.rotation = 0 ∧
    jsAngleDiff (-170) 720 = -530 ∧
    specAngleDiff (-170) 720 = -170 ∧
    (runPhysics (fun _ => 0) (fun _ => 0) (List.replicate 240 rightKeys)
        initialUserCar).rotation = 720 := by
  refine ⟨by norm_num [jsAngleDiff, jsRem, ratTrunc],
    by norm_num [jsAngleDiff, jsRem, ratTrunc], rfl,
    by norm_num [jsAngleDiff, jsRem, ratTrunc, Int.ceil_neg], ?_, ?_⟩
  · unfold specAngleDiff
    norm_num
  · rw [runPhysics_rightKeys]
    norm_num

/-- C2 (amended): whenever `bearing - heading + 540` is nonnegative —
which covers every heading up to one full turn, in particular any
heading in [0, 360] — the angle difference computed by the program
equals `((bearing - heading + 540) mod 360) - 180` with the
mathematical mod, and lies in the half-open interval [-180, 180). -/
theorem angle_normalization_in_range (b h : ℚ)
    (hs : 0 ≤ b - h + 540) :
    jsAngleDiff b h = specAngleDiff b h ∧
    -180 ≤ jsAngleDiff b h ∧ jsAngleDiff b h < 180 := by
  have hq : (0 : ℚ) ≤ (b - h + 540) / 360 := by
    apply div_nonneg hs
    norm_num
  have htr : ratTrunc ((b - h + 540) / 360) = ⌊(b - h + 540) / 360⌋ := by
    unfold ratTrunc
    rw [if_pos hq]
  have hrem : jsRem (b - h + 540) 360
      = 360 * Int.fract ((b - h + 540) / 360) := by
    unfold jsRem
    rw [htr, Int.fract]
    field_simp
  have hfr0 : (0 : ℚ) ≤ Int.fract ((b - h + 540) / 360) := Int.fract_nonneg _
  have hfr1 : Int.fract ((b - h + 540) / 360) < 1 := Int.fract_lt_one _
  have heq : jsAngleDiff b h = specAngleDiff b h := by
    unfold jsAngleDiff specAngleDiff
    rw [hrem, Int.fract]
    field_simp
  refine ⟨heq, ?_, ?_⟩
  · unfold jsAngleDiff
    rw [hrem]
    nlinarith
  · unfold jsAngleDiff
    rw [hrem]
    nlinarith

/-- Witness for C2's amended statement: heading 170, bearing -170
(i.e. 190): the difference resolves to 20, inside [-180, 180). -/
theorem angle_normalization_in_range_witness :
    (jsAngleDiff (-170) 170 = specAngleDiff (-170) 170 ∧
      -180 ≤ jsAngleDiff (-170) 170 ∧ jsAngleDiff (-170) 170 < 180) ∧
    jsAngleDiff (-170) 170 = 20 :=
  ⟨angle_normalization_in_range (-170) 170 (by norm_num),
   by norm_num [jsAngleDiff, jsRem, ratTrunc]⟩

/-- C3: the steering-command chain classifies the signed angle
difference exactly as claimed — absolute value above 130 yields the
reverse command, then a difference above 25 yields turn right, below
-25 yields turn left, and otherwise the straight command; at the
boundaries 25 is straight and 26 is turn right. -/
theorem steering_classification (d : ℚ) :
    (130 < |d| → steerCmd d = "Reverse back carefully.") ∧
    (|d| ≤ 130 → 25 < d → steerCmd d = "Turn right.") ∧
    (|d| ≤ 130 → d < -25 → steerCmd d = "Turn left.") ∧
    (|d| ≤ 130 → -25 ≤ d → d ≤ 25 → steerCmd d = "Drive straight ahead.") ∧
    steerCmd 25 = "Drive straight ahead." ∧
    steerCmd 26 = "Turn right." := by
  refine ⟨?_, ?_, ?_, ?_, by decide, by decide⟩
  · intro hrev
    unfold steerCmd
    rw [if_pos hrev]
  · intro habs hr
    unfold steerCmd
    rw [if_neg (not_lt.mpr habs), if_pos hr]
  · intro habs hl
    unfold steerCmd
    rw [if_neg (not_lt.mpr habs), if_neg (by linarith), if_pos hl]
  · intro habs hge hle
    unfold steerCmd
    rw [if_neg (not_lt.mpr habs), if_neg (not_lt.mpr hle),
      if_neg (not_lt.mpr (by linarith))]

/-- Witness for C3: the four classification branches at the concrete
differences 140, 30, -30 and 0. -/
theorem steering_classification_witness :
    steerCmd 140 = "Reverse back carefully." ∧
    steerCmd 30 = "Turn right." ∧
    steerCmd (-30) = "Turn left." ∧
    steerCmd 0 = "Drive straight ahead." :=
  ⟨(steering_classification 140).1 (by norm_num),
   (steering_classification 30).2.1 (by norm_num) (by norm_num),
   (steering_classification (-30)).2.2.1 (by norm_num) (by norm_num),
   (steering_classification 0).2.2.2.1 (by norm_num) (by norm_num) (by norm_num)⟩

lemma driving_ne_parked : CarState.driving ≠ CarState.parked :=
  fun h => CarState.noConfusion h

/-- A far-away target spot used to exercise the rate limiter. -/
def rlSpot : ParkingSpot :=
  { id := "T", type := SpotType.standard, status := SpotStatus.available,
    x := 90, y := 50, aisle := "A" }

/-- The guided vehicle at abscissa `cx` on the lot's mid line, targeting
`rlSpot`. -/
def rlCar (cx : ℚ) : Vehicle :=
  { id := "user", location := { x := cx, y := 50 }, rotation := 0,
    targetSpotId := some "T", state := CarState.driving, color := "#3b82f6" }

/-- C4 counterexample: two guidance calls 500ms apart with the vehicle
displaced by 10 normalized units (more than 5) emit only ONE
instruction, not two: the second call is silent because the
displacement branch of the rate limiter also requires more than 1000ms
to have elapsed. -/
theorem rate_limiter_counterexample :
    (checkNavigation 100000 [rlSpot] (rlCar 10) initialGuideState).1
      = GuideOutcome.emit ∧
    (checkNavigation 100500 [rlSpot] (rlCar 20)
        (checkNavigation 100000 [rlSpot] (rlCar 10) initialGuideState).2.2).1
      = GuideOutcome.silent ∧
    dist2 (rlCar 20).location (rlCar 10).location = 100 := by
  norm_num [checkNavigation, rlSpot, rlCar, initialGuideState, dist2, List.find?,
    if_neg driving_ne_parked]

/-- C4 (amended): two guidance calls 500ms apart with the vehicle
stationary emit exactly one instruction; a displacement above 5
normalized units re-issues sooner than the 8000ms cooldown only when
more than 1000ms have also elapsed — so two displaced calls 500ms apart
still emit exactly one instruction, while two displaced calls 1500ms
apart emit two. -/
theorem rate_limiter_rules :
    (checkNavigation 100000 [rlSpot] (rlCar 10) initialGuideState).1
      = GuideOutcome.emit ∧
    (checkNavigation 100500 [rlSpot] (rlCar 10)
        (checkNavigation 100000 [rlSpot] (rlCar 10) initialGuideState).2.2).1
      = GuideOutcome.silent ∧
    (checkNavigation 100500 [rlSpot] (rlCar 20)
        (checkNavigation 100000 [rlSpot] (rlCar 10) initialGuideState).2.2).1
      = GuideOutcome.silent ∧
    (checkNavigation 101500 [rlSpot] (rlCar 20)
        (checkNavigation 100000 [rlSpot] (rlCar 10) initialGuideState).2.2).1
      = GuideOutcome.emit := by
  norm_num [checkNavigation, rlSpot, rlCar, initialGuideState, dist2, List.find?,
    if_neg driving_ne_parked]

/-- First-listed available spot, far from the vehicle. -/
def farSpot : ParkingSpot :=
  { id := "F", type := SpotType.standard, status := SpotStatus.available,
    x := 90, y := 50, aisle := "A" }

/-- Second-listed available spot, close to the vehicle. -/
def nearSpot : ParkingSpot :=
  { id := "N", type := SpotType.standard, status := SpotStatus.available,
    x := 10, y := 50, aisle := "A" }

/-- C5: `findSpot` of the cited variant does NOT select by Euclidean
distance: with the vehicle at its initial position (5,50), the far spot
(distance 85) listed before the near spot (distance 5), `findSpot`
returns the far spot — the first available in list order — even though
a strictly closer available candidate exists. -/
theorem findSpot_ignores_distance :
    findSpot [farSpot, nearSpot] none = some farSpot ∧
    dist2 initialUserCar.location { x := nearSpot.x, y := nearSpot.y }
      < dist2 initialUserCar.location { x := farSpot.x, y := farSpot.y } ∧
    farSpot ≠ nearSpot := by
  refine ⟨by decide, ?_, by decide⟩
  norm_num [dist2, farSpot, nearSpot, initialUserCar]

/-- A spot whose status was set to reserved before a classification. -/
def reservedSpot : ParkingSpot :=
  { id := "A1", type := SpotType.standard, status := SpotStatus.reserved,
    x := 15, y := 15, aisle := "A" }

/-- C6 counterexample: a spot that is reserved before the classification
IS overwritten by the classifier's status update — with an empty
occupied list its status becomes available, no longer reserved. -/
theorem reserved_spot_overwritten :
    (onAnalysisComplete [reservedSpot] []).map (fun s => s.status)
      = [SpotStatus.available] ∧
    reservedSpot.status = SpotStatus.reserved := by
  decide

/-- C6 (amended): applying the classifier output never sets any spot's
status to reserved — every resulting status is occupied or available —
but previously reserved spots are overwritten like any other spot, not
protected. -/
theorem classifier_update_never_reserved (spots : List ParkingSpot)
    (ids : List String) (s : ParkingSpot)
    (hs : s ∈ onAnalysisComplete spots ids) :
    s.status = SpotStatus.occupied ∨ s.status = SpotStatus.available := by
  rcases List.mem_map.mp hs with ⟨t, _, rfl⟩
  cases h : ids.contains t.id
  · right
    simp [h]
  · left
    simp [h]

/-- Witness for C6's amended statement: the overwritten reserved spot is
in the classifier's update of a one-spot lot, and its status is one of
occupied/available. -/
theorem classifier_update_never_reserved_witness :
    ({ id := "A1", type := SpotType.standard, status := SpotStatus.available,
       x := 15, y := 15, aisle := "A" } : ParkingSpot).status
        = SpotStatus.occupied ∨
    ({ id := "A1", type := SpotType.standard, status := SpotStatus.available,
       x := 15, y := 15, aisle := "A" } : ParkingSpot).status
        = SpotStatus.available :=
  classifier_update_never_reserved [reservedSpot] []
    { id := "A1", type := SpotType.standard, status := SpotStatus.available,
      x := 15, y := 15, aisle := "A" }
    (by decide)

lemma analyze_mem_id (img : ImageData) (l : List ParkingSpot) (i : String)
    (h : i ∈ analyze img l) : ∃ t ∈ l, t.id = i := by
  unfold analyze at h
  rcases List.mem_filterMap.mp h with ⟨t, ht, hft⟩
  refine ⟨t, ht, ?_⟩
  unfold analyzeSpot at hft
  dsimp only at hft
  rcases hgd : getImageData img (spotBox img t).1 (spotBox img t).2.1
      (spotBox img t).2.2.1 (spotBox img t).2.2.2 with _ | data
  · rw [hgd] at hft
    cases hft
  · rw [hgd] at hft
    dsimp only at hft
    by_cases hocc : isOccupiedRegion data
    · rw [if_pos hocc] at hft
      exact (Option.some.injEq _ _).mp hft
    · rw [if_neg hocc] at hft
      cases hft

/-- C7: a spot whose sampling box falls partially outside the image
bounds is skipped, not fatal: the classifier's result over a list
containing it equals the concatenated results over the remaining spots
(classification completes), and — as long as no other spot shares the
id — the skipped spot's id is excluded from the returned occupied
set. -/
theorem oob_region_skipped (img : ImageData) (s : ParkingSpot)
    (pre post : List ParkingSpot) (hoob : ¬ boxInBounds img s) :
    analyze img (pre ++ s :: post) = analyze img pre ++ analyze img post ∧
    ((∀ t ∈ pre, t.id ≠ s.id) → (∀ t ∈ post, t.id ≠ s.id) →
      s.id ∉ analyze img (pre ++ s :: post)) := by
  have hnone : getImageData img (spotBox img s).1 (spotBox img s).2.1
      (spotBox img s).2.2.1 (spotBox img s).2.2.2 = none := by
    unfold getImageData
    rw [if_neg]
    intro hc
    exact hoob hc
  have happ : analyzeSpot img s = none := by
    unfold analyzeSpot
    dsimp only
    rw [hnone]
  have hsingle : List.filterMap (analyzeSpot img) [s] = [] := by
    simp [happ]
  have hsplit : analyze img (pre ++ s :: post)
      = analyze img pre ++ analyze img post := by
    unfold analyze
    rw [show pre ++ s :: post = pre ++ [s] ++ post by simp]
    rw [List.filterMap_append, List.filterMap_append, hsingle, List.append_nil]
  refine ⟨hsplit, ?_⟩
  intro hpre hpost hmem
  rw [hsplit] at hmem
  rcases List.mem_append.mp hmem with hm | hm
  · rcases analyze_mem_id img pre s.id hm with ⟨t, ht, hid⟩
    exact hpre t ht hid
  · rcases analyze_mem_id img post s.id hm with ⟨t, ht, hid⟩
    exact hpost t ht hid

/-- An 800x600 image whose pixel reads return an empty block. -/
def oobImage : ImageData :=
  { width := 800, height := 600, sample := fun _ _ _ _ => [] }

/-- A spot at the top-left corner, whose 50x80 sampling box sticks out
of the image. -/
def oobSpot : ParkingSpot :=
  { id := "E1", type := SpotType.standard, status := SpotStatus.available,
    x := 0, y := 0, aisle := "A" }

/-- Witness for C7: the corner spot's box is out of bounds, the spot is
skipped and its id is not in the occupied set. -/
theorem oob_region_skipped_witness :
    analyze oobImage ([] ++ oobSpot :: [])
      = analyze oobImage [] ++ analyze oobImage [] ∧
    oobSpot.id ∉ analyze oobImage ([] ++ oobSpot :: []) := by
  have hoob : ¬ boxInBounds oobImage oobSpot := by
    norm_num [boxInBounds, spotBox, oobImage, oobSpot]
  exact ⟨(oob_region_skipped oobImage oobSpot [] [] hoob).1,
    (oob_region_skipped oobImage oobSpot [] [] hoob).2
      (by intro t ht _; cases ht) (by intro t ht _; cases ht)⟩

/-- C8: a region whose every pixel is bright (luminance at least 165,
scaled here by 1000) and low-chroma (max minus min channel at most 10)
classifies as available: such pixels can be neither deep-dark (their
luminance is far above 35) nor high-saturation (chroma at most 10
against a max channel of at least 165 keeps saturation below 0.20), so
both decision ratios are zero and the occupancy test fails.  Texture
(standard deviation) does not enter this classifier's decision at all,
so the conclusion holds regardless of it. -/
theorem bright_low_chroma_is_available (l : List Pixel)
    (h : ∀ p ∈ l, 165000 ≤ lumTimes1000 p ∧ maxChannel p - minChannel p ≤ 10) :
    isOccupiedRegion l = false := by
  have hdark : l.countP isDeepDark = 0 := by
    rw [List.countP_eq_zero]
    intro p hp
    have h1 := (h p hp).1
    simp only [isDeepDark, decide_eq_true_eq, not_lt]
    omega
  have hsat : l.countP isHighSat = 0 := by
    rw [List.countP_eq_zero]
    intro p hp
    obtain ⟨h1, h2⟩ := h p hp
    simp only [isHighSat, decide_eq_true_eq, not_and, not_lt]
    intro hmx
    have hr : p.r ≤ maxChannel p := le_max_left _ _
    have hg : p.g ≤ maxChannel p := le_trans (le_max_left _ _) (le_max_right _ _)
    have hb : p.b ≤ maxChannel p := le_trans (le_max_right _ _) (le_max_right _ _)
    have hlm : lumTimes1000 p ≤ 1000 * maxChannel p := by
      unfold lumTimes1000
      omega
    omega
  unfold isOccupiedRegion satFrac darkFrac
  rw [hdark, hsat]
  norm_num

/-- Witness for C8: a two-pixel patch of near-gray bright pixels
(each with luminance about 220 and chroma 1) classifies as
available. -/
theorem bright_low_chroma_is_available_witness :
    isOccupiedRegion
      [{ r := 220, g := 220, b := 221 }, { r := 220, g := 220, b := 221 }]
      = false :=
  bright_low_chroma_is_available _ (by decide)

/-- C9: starting from any in-bounds vehicle pose, every sequence of
physics ticks — whatever the pressed keys and whatever movement deltas
the trigonometry produces — keeps both normalized coordinates inside
[0,100], because each tick either leaves the pose unchanged or clamps
both coordinates. -/
theorem coordinates_stay_in_bounds (cosF sinF : ℚ → ℚ) (inputs : List Keys)
    (v : Vehicle) (h : inBounds v) :
    inBounds (runPhysics cosF sinF inputs v) := by
  induction inputs generalizing v with
  | nil => simpa [runPhysics] using h
  | cons k rest ih =>
    have hstep : runPhysics cosF sinF (k :: rest) v
        = runPhysics cosF sinF rest (physicsTick cosF sinF k v) := rfl
    rw [hstep]
    exact ih _ (physicsTick_inBounds cosF sinF k v h)

/-- Witness for C9: one forward tick from the initial pose stays in
bounds. -/
theorem coordinates_stay_in_bounds_witness :
    inBounds (runPhysics (fun _ => 1) (fun _ => 0)
      [{ up := true, down := false, left := false, right := false }]
      initialUserCar) :=
  coordinates_stay_in_bounds (fun _ => 1) (fun _ => 0) _ initialUserCar
    (by norm_num [inBounds, initialUserCar])

/-- C10: the physics tick never normalizes, wraps or clamps the
heading: `n` right-turn ticks from the initial pose yield rotation
exactly `3 * n` and `n` left-turn ticks exactly `-(3 * n)`, so for
every bound `B` a reachable state exceeds `B` (and one lies below
`-B`); and the navigation effect feeds that raw rotation directly into
the angle-difference normalization, as the emitted steering command for
such a state is computed from `jsAngleDiff bearing (3 * n)`. -/
theorem heading_unbounded (cosF sinF : ℚ → ℚ) (B : ℚ) :
    ∃ n : ℕ,
      (runPhysics cosF sinF (List.replicate n rightKeys) initialUserCar).rotation
        = 3 * n ∧
      B < (runPhysics cosF sinF (List.replicate n rightKeys)
        initialUserCar).rotation ∧
      (runPhysics cosF sinF (List.replicate n leftKeys) initialUserCar).rotation
        = -(3 * n) ∧
      (runPhysics cosF sinF (List.replicate n leftKeys)
        initialUserCar).rotation < -B ∧
      ∀ atan2Deg : ℚ → ℚ → ℚ,
        (navStep atan2Deg INITIAL_SPOTS
            { runPhysics cosF sinF (List.replicate n rightKeys) initialUserCar with
              targetSpotId := some "A1" }).1
          = NavOutcome.instruction
              (steerCmd (jsAngleDiff (atan2Deg (-35) 10) (3 * n))) := by
  obtain ⟨n, hn⟩ := exists_nat_gt B
  have h3 : B < 3 * (n : ℚ) := by
    have hnn : (0 : ℚ) ≤ (n : ℚ) := Nat.cast_nonneg n
    linarith
  refine ⟨n, ?_, ?_, ?_, ?_, ?_⟩
  · rw [runPhysics_rightKeys]
  · rw [runPhysics_rightKeys]
    exact h3
  · rw [runPhysics_leftKeys]
  · rw [runPhysics_leftKeys]
    exact neg_lt_neg h3
  · intro atan2Deg
    rw [runPhysics_rightKeys]
    norm_num [navStep, INITIAL_SPOTS, initialUserCar, List.find?,
      if_neg driving_ne_parked]

end SmartParking
